import Mathlib

/-!
Verification of the stock-suggestion dashboard (`my_dashboard.py`).

The two scan pipelines (`find_long_term_suggestions`, `find_intraday_opportunities`)
are embedded as pure Lean functions.  Prices and volumes are modelled as rationals;
a fetched price frame is a chronological list of OHLCV bars.  Fallible operations
(the yfinance download, the per-ticker column extraction) are modelled by
`Except String`: the scan functions take the fetch outcome as an argument, so every
possible behaviour of the external data provider corresponds to one argument value.
The Streamlit progress bar is modelled by recording the sequence of fractions the
scan passes to `_update_progress`; the `st.warning` calls are modelled by recording
the list of warning messages.
-/

namespace Dashboard

abbrev Ticker := String

/-- One OHLCV observation of a price series (one row of the downloaded frame).
`opn` stands for the `Open` column (`open` is a Lean keyword).  `date` is the
calendar date of the row's timestamp, encoded as an integer. -/
structure Bar where
  date : Int
  opn : ℚ
  high : ℚ
  low : ℚ
  close : ℚ
  volume : ℚ
  deriving Repr, DecidableEq

/-- A per-ticker sub-frame of the intraday batch download: its rows, and whether
the frame has a `Volume` column (`'Volume' in today_data.columns`). -/
structure Frame where
  bars : List Bar
  hasVolume : Bool
  deriving Repr, DecidableEq

/-- `stock_data['Close'].iloc[-1]` — close of the last row (0 on an empty frame,
which the code never reaches). -/
def lastClose (bs : List Bar) : ℚ :=
  match bs.getLast? with
  | some b => b.close
  | none => 0

/-- `today_data['Open'].iloc[0]` — open of the first row. -/
def firstOpen (bs : List Bar) : ℚ :=
  match bs.head? with
  | some b => b.opn
  | none => 0

/-- `stock_data['Low'].min()`. -/
def minLow (bs : List Bar) : ℚ :=
  match bs with
  | [] => 0
  | b :: rest => rest.foldl (fun a x => min a x.low) b.low

/-- `stock_data['High'].max()`. -/
def maxHigh (bs : List Bar) : ℚ :=
  match bs with
  | [] => 0
  | b :: rest => rest.foldl (fun a x => max a x.high) b.high

/-- `today_data['Volume'].iloc[-1]` — volume of the last row. -/
def lastVol (bs : List Bar) : ℚ :=
  match bs.getLast? with
  | some b => b.volume
  | none => 0

/-- Two-decimal rendering of a rational, mirroring Python's `f"{x:.2f}"`
(rounding to the nearest hundredth). -/
def fmt2 (q : ℚ) : String :=
  let n : Int := round (q * 100)
  let m : Nat := n.natAbs
  let frac : Nat := m % 100
  (if n < 0 then "-" else "") ++ toString (m / 100) ++ "." ++
    (if frac < 10 then "0" else "") ++ toString frac

/-- Currency rendering `f"₹{x:.2f}"`. -/
def rupee (q : ℚ) : String := "₹" ++ fmt2 q

/-- One row of the long-term result table. -/
structure SuggestionRecord where
  stock : Ticker
  cmp : String
  low52 : String
  high52 : String
  upside : String
  deriving Repr, DecidableEq

/-- One row of the intraday result table. -/
structure OpportunityRecord where
  stock : Ticker
  cmp : String
  condition : String
  entry : String
  target : String
  stopLoss : String
  deriving Repr, DecidableEq

/-- Everything observable about one scan run: the returned result table, the
`st.warning` messages emitted, and the fractions passed to the progress bar. -/
structure ScanResult (α : Type) where
  records : List α
  warnings : List String
  progress : List ℚ
  deriving Repr

-- --- Stock Lists (NSE Tickers) ---

def NIFTY_50_STOCKS : List Ticker := [
  "RELIANCE.NS", "TCS.NS", "HDFCBANK.NS", "ICICIBANK.NS", "INFY.NS",
  "HINDUNILVR.NS", "BHARTIARTL.NS", "ITC.NS", "SBIN.NS", "LICI.NS",
  "BAJFINANCE.NS", "HCLTECH.NS", "MARUTI.NS", "KOTAKBANK.NS", "LT.NS",
  "SUNPHARMA.NS", "AXISBANK.NS", "NTPC.NS", "ONGC.NS", "ADANIENT.NS",
  "TATAMOTORS.NS", "ASIANPAINT.NS", "WIPRO.NS", "DMART.NS",
  "ULTRACEMCO.NS", "COALINDIA.NS", "BAJAJFINSV.NS", "ADANIPORTS.NS",
  "POWERGRID.NS", "NESTLEIND.NS", "GRASIM.NS", "SBILIFE.NS",
  "M&M.NS", "JSWSTEEL.NS", "TATASTEEL.NS", "HDFCLIFE.NS",
  "INDUSINDBK.NS", "BRITANNIA.NS", "CIPLA.NS", "DRREDDY.NS",
  "EICHERMOT.NS", "HINDALCO.NS", "HEROMOTOCO.NS", "BPCL.NS",
  "DIVISLAB.NS", "TECHM.NS", "APOLLOHOSP.NS", "TITAN.NS",
  "UPL.NS", "SHREECEM.NS"]

def NIFTY_100_STOCKS : List Ticker := NIFTY_50_STOCKS ++ [
  "ADANIGREEN.NS", "BAJAJ-AUTO.NS", "CHOLAFIN.NS", "GAIL.NS",
  "GODREJCP.NS", "HAVELLS.NS", "ICICIPRULI.NS", "IOC.NS",
  "PIDILITIND.NS", "SIEMENS.NS", "TATACONSUM.NS", "TVSMOTOR.NS",
  "VEDL.NS", "ZEEL.NS", "AMBUJACEM.NS", "BEL.NS", "BOSCHLTD.NS",
  "DLF.NS", "ICICIGI.NS", "INDIGO.NS", "MARICO.NS", "PGHH.NS",
  "PNB.NS", "SAIL.NS", "SRF.NS", "ZOMATO.NS", "BANKBARODA.NS",
  "BERGEPAINT.NS", "CANBK.NS", "DABUR.NS", "HAL.NS",
  "IDFCFIRSTB.NS", "INDUSTOWER.NS", "JINDALSTEL.NS", "LTIM.NS",
  "MOTHERSON.NS", "PETRONET.NS", "PIIND.NS", "SHRIRAMFIN.NS",
  "TATAPOWER.NS", "TORNTPOWER.NS", "TRENT.NS", "AUROPHARMA.NS",
  "COLPAL.NS", "HDFCAMC.NS", "HINDPETRO.NS", "IRCTC.NS"]

/-- The loop body shared by both scans: `step t` yields the optional record and the
warning messages for ticker `t`; the loop threads the 0-based index `i` and, in its
`finally` clause, records `_update_progress`'s fraction `min(1.0, (i+1)/total)`. -/
def scanLoop {α : Type} (step : Ticker → Option α × List String) (total : Nat) :
    List Ticker → Nat → List α × List String × List ℚ
  | [], _ => ([], [], [])
  | t :: rest, i =>
    let s := step t
    let r := scanLoop step total rest (i + 1)
    ((match s.1 with | some a => a :: r.1 | none => r.1),
     s.2 ++ r.2.1,
     min 1 (((i : ℚ) + 1) / (total : ℚ)) :: r.2.2)

/-- Run one scan over a ticker universe. -/
def runScan {α : Type} (univ : List Ticker) (step : Ticker → Option α × List String) :
    ScanResult α :=
  let r := scanLoop step univ.length univ 0
  { records := r.1, warnings := r.2.1, progress := r.2.2 }

/-- Body of the long-term loop for one ticker: the `yf.download` outcome is
`fetch t`.  An exception is caught and turned into one `st.warning` message; an
empty frame is skipped; otherwise the 52-week statistics are computed and a record
is appended when `current_price <= fifty_two_week_low * 1.05`. -/
def longTermStep (fetch : Ticker → Except String (List Bar)) (t : Ticker) :
    Option SuggestionRecord × List String :=
  match fetch t with
  | .error e => (none, ["Could not analyze " ++ t ++ ". Error: " ++ e])
  | .ok stock_data =>
    if stock_data.isEmpty then (none, [])
    else
      let fifty_two_week_low := minLow stock_data
      let fifty_two_week_high := maxHigh stock_data
      let current_price := lastClose stock_data
      if current_price ≤ fifty_two_week_low * 1.05 then
        (some { stock := t,
                cmp := rupee current_price,
                low52 := rupee fifty_two_week_low,
                high52 := rupee fifty_two_week_high,
                upside := fmt2 ((fifty_two_week_high - current_price) / current_price * 100)
                            ++ "%" },
         [])
      else (none, [])

/-- `find_long_term_suggestions`, as a function of the per-ticker fetch outcome. -/
def find_long_term_suggestions (fetch : Ticker → Except String (List Bar)) :
    ScanResult SuggestionRecord :=
  runScan NIFTY_100_STOCKS (longTermStep fetch)

/-- `ticker_frame[ticker_frame.index.date == today]`. -/
def todayBars (fr : Frame) (today : Int) : List Bar :=
  fr.bars.filter (fun b => b.date = today)

/-- `today_data['Volume'].iloc[-10:-1]`: the rows at offsets −10..−2 from the end,
clipped to the frame — i.e. the last at-most-9 rows before the final one. -/
def recentVol (td : List Bar) : List Bar :=
  td.dropLast.drop (td.length - 10)

/-- The `(avg_volume, last_volume)` pair of the intraday loop: read from the data
when the `Volume` column exists and the prior window is non-empty, and `(0, 0)`
otherwise. -/
def avgLastVolume (fr : Frame) (today : Int) : ℚ × ℚ :=
  if fr.hasVolume then
    let recent := recentVol (todayBars fr today)
    if recent.isEmpty then (0, 0)
    else (((recent.map (·.volume)).sum) / (recent.length : ℚ),
          lastVol (todayBars fr today))
  else (0, 0)

/-- Body of the intraday loop for one ticker: `data t` is the outcome of extracting
the ticker's sub-frame from the batch download; any exception is swallowed
(`except: pass`), so the warning list is always empty. -/
def intradayStep (today : Int) (data : Ticker → Except String Frame) (t : Ticker) :
    Option OpportunityRecord × List String :=
  match data t with
  | .error _ => (none, [])
  | .ok ticker_frame =>
    if ticker_frame.bars.isEmpty then (none, [])
    else
      let today_data := todayBars ticker_frame today
      if today_data.isEmpty then (none, [])
      else
        let last_price := lastClose today_data
        let day_high := maxHigh today_data
        let day_open := firstOpen today_data
        if last_price > day_open ∧ last_price ≥ day_high * 0.995 then
          let av := avgLastVolume ticker_frame today
          if av.1 = 0 ∨ av.2 > av.1 * 1.5 then
            let entry_price := day_high + 0.05
            let stop_loss := day_open
            let risk := entry_price - stop_loss
            let target := entry_price + risk * 1.5
            if risk > 0 then
              (some { stock := t,
                      cmp := rupee last_price,
                      condition := "Near Day High + Volume Spike",
                      entry := rupee entry_price,
                      target := rupee target,
                      stopLoss := rupee stop_loss },
               [])
            else (none, [])
          else (none, [])
        else (none, [])

/-- The per-ticker loop of `find_intraday_opportunities`, after a successful batch
download `data`. -/
def find_intraday_core (today : Int) (data : Ticker → Except String Frame) :
    ScanResult OpportunityRecord :=
  runScan NIFTY_50_STOCKS (intradayStep today data)

/-- `find_intraday_opportunities`: the single batch `yf.download` happens outside
the per-ticker `try`, so a failing batch fetch propagates out of the function. -/
def find_intraday_opportunities (today : Int)
    (batch : Except String (Ticker → Except String Frame)) :
    Except String (ScanResult OpportunityRecord) :=
  match batch with
  | .error e => .error e
  | .ok data => .ok (find_intraday_core today data)

/-- The sequence of fractions `_update_progress` reports over a scan of `n`
tickers: `min(1.0, (i+1)/n)` for `i = 0, …, n−1`. -/
def progressList (n : Nat) : List ℚ :=
  (List.range n).map (fun (i : Nat) => min 1 (((i : ℚ) + 1) / (n : ℚ)))

/-- The warning the long-term loop emits for ticker `t`, when its fetch fails. -/
def warnOpt (fetch : Ticker → Except String (List Bar)) (t : Ticker) : Option String :=
  match fetch t with
  | .error e => some ("Could not analyze " ++ t ++ ". Error: " ++ e)
  | .ok _ => none

/-- The non-volume content of a bar: (date, open, high, low, close). -/
def dropVolume (b : Bar) : Int × ℚ × ℚ × ℚ × ℚ :=
  (b.date, b.opn, b.high, b.low, b.close)

-- Concrete fixtures used to instantiate the theorems below.

/-- The example one-year series of the design document: lows 100/90/95, highs
110/115/105, last close 93. -/
def exampleBars : List Bar := [
  { date := 0, opn := 100, high := 110, low := 100, close := 101, volume := 0 },
  { date := 1, opn := 95, high := 115, low := 90, close := 98, volume := 0 },
  { date := 2, opn := 96, high := 105, low := 95, close := 93, volume := 0 }]

/-- A fetch in which exactly one ticker succeeds, with the example series. -/
def exampleFetch : Ticker → Except String (List Bar) :=
  fun t => if t = "TCS.NS" then .ok exampleBars else .error "no data"

/-- The suggestion record the long-term scan produces from `exampleBars`. -/
def exampleRecord : SuggestionRecord :=
  { stock := "TCS.NS",
    cmp := rupee (lastClose exampleBars),
    low52 := rupee (minLow exampleBars),
    high52 := rupee (maxHigh exampleBars),
    upside := fmt2 ((maxHigh exampleBars - lastClose exampleBars)
                      / lastClose exampleBars * 100) ++ "%" }

/-- The example intraday frame of the design document: one bar yesterday (date 4)
and two bars today (date 5); open 100, high 105, last close 104.7, prior-window
volume 1000, last volume 1600. -/
def exampleFrame : Frame :=
  { bars := [
      { date := 4, opn := 98, high := 100, low := 97, close := 99, volume := 500 },
      { date := 5, opn := 100, high := 103, low := 99, close := 101, volume := 1000 },
      { date := 5, opn := 101, high := 105, low := 100, close := 104.7, volume := 1600 }],
    hasVolume := true }

/-- A batch in which exactly one ticker's sub-frame extraction succeeds. -/
def exampleData : Ticker → Except String Frame :=
  fun t => if t = "TCS.NS" then .ok exampleFrame else .error "missing columns"

/-- A frame with exactly one bar today — the empty-prior-window degenerate case. -/
def oneBarFrame : Frame :=
  { bars := [{ date := 5, opn := 100, high := 105, low := 99, close := 104.7, volume := 7 }],
    hasVolume := true }

/-- `oneBarFrame` with a different last-bar volume (same everything else). -/
def oneBarFrameAlt : Frame :=
  { bars := [{ date := 5, opn := 100, high := 105, low := 99, close := 104.7,
               volume := 123456 }],
    hasVolume := true }

def oneBarData : Ticker → Except String Frame :=
  fun t => if t = "TCS.NS" then .ok oneBarFrame else .error "missing columns"

/-- A fetch failing only at "TCS.NS". -/
def failFetch : Ticker → Except String (List Bar) :=
  fun t => if t = "TCS.NS" then .error "boom" else .ok exampleBars

def okFetch : Ticker → Except String (List Bar) :=
  fun _ => .ok exampleBars

/-- A batch whose extraction fails only at "INFY.NS". -/
def failData : Ticker → Except String Frame :=
  fun t => if t = "INFY.NS" then .error "boom" else .ok exampleFrame

def okData : Ticker → Except String Frame :=
  fun _ => .ok exampleFrame

-- Characterization of the scan loop's three outputs.

theorem scanLoop_records {α : Type} (step : Ticker → Option α × List String) (total : Nat) :
    ∀ (l : List Ticker) (i : Nat),
      (scanLoop step total l i).1 = l.filterMap (fun t => (step t).1)
  | [], _ => rfl
  | t :: rest, i => by
    have ih := scanLoop_records step total rest (i + 1)
    simp only [scanLoop, List.filterMap_cons]
    cases h : (step t).1 <;> simp [h, ih]

theorem scanLoop_warnings {α : Type} (step : Ticker → Option α × List String) (total : Nat)
    (W : Ticker → Option String) (hW : ∀ t, (step t).2 = (W t).toList) :
    ∀ (l : List Ticker) (i : Nat),
      (scanLoop step total l i).2.1 = l.filterMap W
  | [], _ => rfl
  | t :: rest, i => by
    have ih := scanLoop_warnings step total W hW rest (i + 1)
    simp only [scanLoop, List.filterMap_cons]
    cases h : W t <;> simp [hW t, h, ih]

theorem scanLoop_progress {α : Type} (step : Ticker → Option α × List String) (total : Nat) :
    ∀ (l : List Ticker) (i : Nat),
      (scanLoop step total l i).2.2
        = (List.range l.length).map
            (fun (j : Nat) => min 1 (((i : ℚ) + (j : ℚ) + 1) / (total : ℚ)))
  | [], _ => rfl
  | t :: rest, i => by
    have ih := scanLoop_progress step total rest (i + 1)
    simp only [scanLoop, List.length_cons, List.range_succ_eq_map, List.map_cons,
      List.map_map, ih]
    congr 1
    · norm_num
    · apply List.map_congr_left
      intro j _
      simp only [Function.comp_apply]
      push_cast
      ring_nf

theorem runScan_records {α : Type} (univ : List Ticker)
    (step : Ticker → Option α × List String) :
    (runScan univ step).records = univ.filterMap (fun t => (step t).1) :=
  scanLoop_records step univ.length univ 0

theorem runScan_warnings {α : Type} (univ : List Ticker)
    (step : Ticker → Option α × List String)
    (W : Ticker → Option String) (hW : ∀ t, (step t).2 = (W t).toList) :
    (runScan univ step).warnings = univ.filterMap W :=
  scanLoop_warnings step univ.length W hW univ 0

theorem runScan_progress {α : Type} (univ : List Ticker)
    (step : Ticker → Option α × List String) :
    (runScan univ step).progress = progressList univ.length := by
  show (scanLoop step univ.length univ 0).2.2 = _
  rw [scanLoop_progress]
  unfold progressList
  apply List.map_congr_left
  intro j _
  norm_num

-- Properties of the progress sequence.

theorem progressList_length (n : Nat) : (progressList n).length = n := by
  simp [progressList]

theorem progressList_chain' (n : Nat) : List.Chain' (· ≤ ·) (progressList n) := by
  unfold progressList
  rw [List.chain'_map]
  cases n with
  | zero => simp
  | succ m =>
    rw [List.chain'_range_succ]
    intro j hj
    apply min_le_min le_rfl
    have hc : (0 : ℚ) < ((m : ℚ) + 1) := by positivity
    rw [Nat.cast_succ, div_le_div_iff_of_pos_right hc]
    push_cast
    linarith

theorem progressList_getLast (n : Nat) (h : 0 < n) :
    (progressList n).getLast? = some 1 := by
  obtain ⟨m, rfl⟩ : ∃ m, n = m + 1 := ⟨n - 1, (Nat.succ_pred_eq_of_pos h).symm⟩
  unfold progressList
  rw [List.range_succ, List.map_append]
  simp only [List.map_cons, List.map_nil, List.getLast?_concat]
  congr 1
  have hne : ((m : ℚ) + 1) ≠ 0 := by positivity
  push_cast
  rw [div_self hne, min_self]

-- Per-ticker lemmas for the long-term loop body.

theorem longTermStep_warnings (fetch : Ticker → Except String (List Bar)) (t : Ticker) :
    (longTermStep fetch t).2 = (warnOpt fetch t).toList := by
  unfold longTermStep warnOpt
  cases fetch t with
  | error e => rfl
  | ok s => dsimp only; split_ifs <;> rfl

theorem longTermStep_stock {fetch : Ticker → Except String (List Bar)} {t : Ticker}
    {r : SuggestionRecord} (h : (longTermStep fetch t).1 = some r) : r.stock = t := by
  unfold longTermStep at h
  cases hf : fetch t with
  | error e => rw [hf] at h; simp at h
  | ok s =>
    rw [hf] at h
    dsimp only at h
    split_ifs at h with h1 h2
    dsimp only at h
    injection h with h
    subst h
    rfl

theorem longTermStep_eq_some {fetch : Ticker → Except String (List Bar)} {t : Ticker}
    {bars : List Bar} {r : SuggestionRecord} (hf : fetch t = .ok bars)
    (h : (longTermStep fetch t).1 = some r) :
    r = { stock := t,
          cmp := rupee (lastClose bars),
          low52 := rupee (minLow bars),
          high52 := rupee (maxHigh bars),
          upside := fmt2 ((maxHigh bars - lastClose bars) / lastClose bars * 100) ++ "%" } := by
  unfold longTermStep at h
  rw [hf] at h
  dsimp only at h
  split_ifs at h with h1 h2
  dsimp only at h
  injection h with h
  subst h
  rfl

theorem longTermStep_isSome_iff {fetch : Ticker → Except String (List Bar)} {t : Ticker}
    {bars : List Bar} (hf : fetch t = .ok bars) (hne : bars ≠ []) :
    (∃ r, (longTermStep fetch t).1 = some r)
      ↔ lastClose bars ≤ minLow bars * 1.05 := by
  unfold longTermStep
  rw [hf]
  dsimp only
  have hE : bars.isEmpty = false := by simpa [List.isEmpty_eq_false]
  rw [hE]
  simp only [Bool.false_eq_true, if_false]
  split_ifs with h2
  · simpa using h2
  · simpa using h2

/-- Membership of a ticker's record in the long-term result table, characterized by
the match condition of the fetched series. -/
theorem long_term_mem_iff (fetch : Ticker → Except String (List Bar)) (t : Ticker)
    (ht : t ∈ NIFTY_100_STOCKS) (bars : List Bar)
    (hf : fetch t = .ok bars) (hne : bars ≠ []) :
    (∃ r ∈ (find_long_term_suggestions fetch).records, r.stock = t)
      ↔ lastClose bars ≤ minLow bars * 1.05 := by
  have hrec : (find_long_term_suggestions fetch).records
      = NIFTY_100_STOCKS.filterMap (fun t' => (longTermStep fetch t').1) :=
    runScan_records _ _
  rw [hrec]
  constructor
  · rintro ⟨r, hr, hs⟩
    rw [List.mem_filterMap] at hr
    obtain ⟨t', _, hstep⟩ := hr
    have hst : r.stock = t' := longTermStep_stock hstep
    rw [hs] at hst
    rw [← hst] at hstep
    exact (longTermStep_isSome_iff hf hne).1 ⟨r, hstep⟩
  · intro hcond
    obtain ⟨r, hr⟩ := (longTermStep_isSome_iff hf hne).2 hcond
    exact ⟨r, List.mem_filterMap.2 ⟨t, ht, hr⟩, longTermStep_stock hr⟩

-- Per-ticker lemmas for the intraday loop body.

theorem intradayStep_warnings (today : Int) (data : Ticker → Except String Frame)
    (t : Ticker) : (intradayStep today data t).2 = [] := by
  unfold intradayStep
  cases data t with
  | error e => rfl
  | ok fr => dsimp only; split_ifs <;> rfl

theorem intradayStep_stock {today : Int} {data : Ticker → Except String Frame}
    {t : Ticker} {r : OpportunityRecord}
    (h : (intradayStep today data t).1 = some r) : r.stock = t := by
  unfold intradayStep at h
  cases hd : data t with
  | error e => rw [hd] at h; simp at h
  | ok fr =>
    rw [hd] at h
    dsimp only at h
    split_ifs at h
    dsimp only at h
    injection h with h
    subst h
    rfl

theorem intradayStep_isSome_iff {today : Int} {data : Ticker → Except String Frame}
    {t : Ticker} {fr : Frame} (hd : data t = .ok fr) :
    (∃ r, (intradayStep today data t).1 = some r) ↔
      (todayBars fr today ≠ [] ∧
       lastClose (todayBars fr today) > firstOpen (todayBars fr today) ∧
       lastClose (todayBars fr today) ≥ maxHigh (todayBars fr today) * 0.995 ∧
       ((avgLastVolume fr today).1 = 0 ∨
          (avgLastVolume fr today).2 > (avgLastVolume fr today).1 * 1.5) ∧
       maxHigh (todayBars fr today) + 0.05 - firstOpen (todayBars fr today) > 0) := by
  unfold intradayStep
  rw [hd]
  dsimp only
  split_ifs with h1 h2 h3 h4 h5
  · have hT : todayBars fr today = [] := by
      unfold todayBars
      rw [List.isEmpty_iff.1 h1]
      rfl
    simp [hT]
  · rw [List.isEmpty_iff] at h2
    simp [h2]
  · constructor
    · intro _
      have hne : todayBars fr today ≠ [] := by simpa using h2
      exact ⟨hne, h3.1, h3.2, h4, h5⟩
    · intro _
      exact ⟨_, rfl⟩
  · constructor
    · rintro ⟨r, hr⟩
      simp at hr
    · rintro ⟨_, _, _, _, hrisk⟩
      exact absurd hrisk h5
  · constructor
    · rintro ⟨r, hr⟩
      simp at hr
    · rintro ⟨_, _, _, hvol, _⟩
      exact absurd hvol h4
  · constructor
    · rintro ⟨r, hr⟩
      simp at hr
    · rintro ⟨_, hgt, hge, _, _⟩
      exact absurd ⟨hgt, hge⟩ h3

/-- Membership of a ticker's record in the intraday result table, characterized by
the breakout conditions of the ticker's sub-frame. -/
theorem intraday_mem_iff (today : Int) (data : Ticker → Except String Frame)
    (t : Ticker) (ht : t ∈ NIFTY_50_STOCKS) (fr : Frame) (hd : data t = .ok fr) :
    (∃ r ∈ (find_intraday_core today data).records, r.stock = t) ↔
      (todayBars fr today ≠ [] ∧
       lastClose (todayBars fr today) > firstOpen (todayBars fr today) ∧
       lastClose (todayBars fr today) ≥ maxHigh (todayBars fr today) * 0.995 ∧
       ((avgLastVolume fr today).1 = 0 ∨
          (avgLastVolume fr today).2 > (avgLastVolume fr today).1 * 1.5) ∧
       maxHigh (todayBars fr today) + 0.05 - firstOpen (todayBars fr today) > 0) := by
  have hrec : (find_intraday_core today data).records
      = NIFTY_50_STOCKS.filterMap (fun t' => (intradayStep today data t').1) :=
    runScan_records _ _
  rw [hrec]
  constructor
  · rintro ⟨r, hr, hs⟩
    rw [List.mem_filterMap] at hr
    obtain ⟨t', _, hstep⟩ := hr
    have hst : r.stock = t' := intradayStep_stock hstep
    rw [hs] at hst
    rw [← hst] at hstep
    exact (intradayStep_isSome_iff hd).1 ⟨r, hstep⟩
  · intro hcond
    obtain ⟨r, hr⟩ := (intradayStep_isSome_iff hd).2 hcond
    exact ⟨r, List.mem_filterMap.2 ⟨t, ht, hr⟩, intradayStep_stock hr⟩

-- Volume-blindness machinery: `dropVolume` erases exactly the Volume column.

theorem filter_today_map_dropVolume (today : Int) (l : List Bar) :
    (l.map dropVolume).filter (fun x => x.1 = today)
      = (l.filter (fun b => b.date = today)).map dropVolume := by
  rw [List.filter_map]
  rfl

theorem isEmpty_of_mapDV {l₁ l₂ : List Bar}
    (h : l₁.map dropVolume = l₂.map dropVolume) : l₁.isEmpty = l₂.isEmpty := by
  cases l₁ <;> cases l₂ <;> simp_all

theorem length_of_mapDV {l₁ l₂ : List Bar}
    (h : l₁.map dropVolume = l₂.map dropVolume) : l₁.length = l₂.length := by
  have := congrArg List.length h
  simpa using this

theorem lastClose_of_mapDV {l₁ l₂ : List Bar}
    (h : l₁.map dropVolume = l₂.map dropVolume) : lastClose l₁ = lastClose l₂ := by
  have hg := congrArg List.getLast? h
  rw [List.getLast?_map, List.getLast?_map] at hg
  unfold lastClose
  cases h₁ : l₁.getLast? <;> cases h₂ : l₂.getLast? <;>
    rw [h₁, h₂] at hg <;> simp_all [dropVolume, Prod.ext_iff]

theorem firstOpen_of_mapDV {l₁ l₂ : List Bar}
    (h : l₁.map dropVolume = l₂.map dropVolume) : firstOpen l₁ = firstOpen l₂ := by
  have hg := congrArg List.head? h
  rw [List.head?_map, List.head?_map] at hg
  unfold firstOpen
  cases h₁ : l₁.head? <;> cases h₂ : l₂.head? <;>
    rw [h₁, h₂] at hg <;> simp_all [dropVolume, Prod.ext_iff]

theorem foldlMax_of_mapDV :
    ∀ {l₁ l₂ : List Bar}, l₁.map dropVolume = l₂.map dropVolume →
      ∀ c : ℚ, l₁.foldl (fun a x => max a x.high) c = l₂.foldl (fun a x => max a x.high) c := by
  intro l₁
  induction l₁ with
  | nil =>
    intro l₂ h c
    cases l₂ with
    | nil => rfl
    | cons b r₂ => simp at h
  | cons a r ih =>
    intro l₂ h c
    cases l₂ with
    | nil => simp at h
    | cons b r₂ =>
      simp only [List.map_cons, List.cons.injEq] at h
      have hab : a.high = b.high := by
        have h1 := h.1
        simp [dropVolume, Prod.ext_iff] at h1
        exact h1.2.2.1
      simp only [List.foldl_cons, hab]
      exact ih h.2 _

theorem maxHigh_of_mapDV {l₁ l₂ : List Bar}
    (h : l₁.map dropVolume = l₂.map dropVolume) : maxHigh l₁ = maxHigh l₂ := by
  cases l₁ with
  | nil =>
    cases l₂ with
    | nil => rfl
    | cons b r₂ => simp at h
  | cons a r =>
    cases l₂ with
    | nil => simp at h
    | cons b r₂ =>
      simp only [List.map_cons, List.cons.injEq] at h
      have hab : a.high = b.high := by
        have h1 := h.1
        simp [dropVolume, Prod.ext_iff] at h1
        exact h1.2.2.1
      show r.foldl (fun m x => max m x.high) a.high
        = r₂.foldl (fun m x => max m x.high) b.high
      rw [hab]
      exact foldlMax_of_mapDV h.2 _

/-- When the `Volume` column is absent, or today has exactly one bar (empty prior
window), the loop sets `avg_volume = last_volume = 0` instead of reading the data. -/
theorem avgLastVolume_degenerate (fr : Frame) (today : Int)
    (h : fr.hasVolume = false ∨ (todayBars fr today).length = 1) :
    avgLastVolume fr today = (0, 0) := by
  rcases h with h | h
  · simp [avgLastVolume, h]
  · obtain ⟨b, hb⟩ := List.length_eq_one.1 h
    have hr : recentVol (todayBars fr today) = [] := by
      unfold recentVol
      rw [hb]
      rfl
    simp [avgLastVolume, hr]

/-- In the degenerate volume cases the emitted record is a function of the
volume-erased frame only: changing every bar volume changes nothing. -/
theorem intradayStep_volume_blind (today : Int) (t : Ticker) (fr fr' : Frame)
    (hdeg : fr.hasVolume = false ∨ (todayBars fr today).length = 1)
    (hv : fr'.hasVolume = fr.hasVolume)
    (hb : fr'.bars.map dropVolume = fr.bars.map dropVolume) :
    (intradayStep today (fun _ => .ok fr') t).1
      = (intradayStep today (fun _ => .ok fr) t).1 := by
  have htd : (todayBars fr' today).map dropVolume
      = (todayBars fr today).map dropVolume := by
    unfold todayBars
    rw [← filter_today_map_dropVolume, ← filter_today_map_dropVolume, hb]
  have hdeg' : fr'.hasVolume = false ∨ (todayBars fr' today).length = 1 := by
    rcases hdeg with h | h
    · exact Or.inl (hv.trans h)
    · exact Or.inr ((length_of_mapDV htd).trans h)
  have hA' := avgLastVolume_degenerate fr' today hdeg'
  have hA := avgLastVolume_degenerate fr today hdeg
  have hE : fr'.bars.isEmpty = fr.bars.isEmpty := isEmpty_of_mapDV hb
  have hTE : (todayBars fr' today).isEmpty = (todayBars fr today).isEmpty :=
    isEmpty_of_mapDV htd
  have hLC : lastClose (todayBars fr' today) = lastClose (todayBars fr today) :=
    lastClose_of_mapDV htd
  have hFO : firstOpen (todayBars fr' today) = firstOpen (todayBars fr today) :=
    firstOpen_of_mapDV htd
  have hMH : maxHigh (todayBars fr' today) = maxHigh (todayBars fr today) :=
    maxHigh_of_mapDV htd
  unfold intradayStep
  dsimp only
  rw [hE, hTE, hLC, hFO, hMH, hA', hA]

-- Congruence of the scans in the fetched data.

theorem scanLoop_congr {α : Type} (s₁ s₂ : Ticker → Option α × List String) (total : Nat) :
    ∀ (l : List Ticker) (i : Nat), (∀ t ∈ l, s₁ t = s₂ t) →
      scanLoop s₁ total l i = scanLoop s₂ total l i
  | [], _, _ => rfl
  | t :: rest, i, h => by
    have ih := scanLoop_congr s₁ s₂ total rest (i + 1)
      (fun x hx => h x (List.mem_cons_of_mem t hx))
    simp only [scanLoop, h t (List.mem_cons_self t rest), ih]

theorem runScan_congr {α : Type} (univ : List Ticker)
    (s₁ s₂ : Ticker → Option α × List String) (h : ∀ t ∈ univ, s₁ t = s₂ t) :
    runScan univ s₁ = runScan univ s₂ := by
  unfold runScan
  rw [scanLoop_congr s₁ s₂ univ.length univ 0 h]

theorem longTermStep_congr {f g : Ticker → Except String (List Bar)} (t : Ticker)
    (h : f t = g t) : longTermStep f t = longTermStep g t := by
  unfold longTermStep
  rw [h]

theorem intradayStep_congr (today : Int) {d d' : Ticker → Except String Frame}
    (t : Ticker) (h : d t = d' t) :
    intradayStep today d t = intradayStep today d' t := by
  unfold intradayStep
  rw [h]

-- Order preservation and uniqueness support.

theorem filterMap_map_sublist {α : Type} (g : α → Ticker) (F : Ticker → Option α)
    (h : ∀ t r, F t = some r → g r = t) :
    ∀ l : List Ticker, ((l.filterMap F).map g).Sublist l
  | [] => by simp
  | t :: rest => by
    rw [List.filterMap_cons]
    cases hF : F t with
    | none => exact (filterMap_map_sublist g F h rest).cons t
    | some a =>
      rw [List.map_cons, h t a hF]
      exact (filterMap_map_sublist g F h rest).cons₂ t

theorem nifty50_nodup : NIFTY_50_STOCKS.Nodup := by decide

theorem nifty100_nodup : NIFTY_100_STOCKS.Nodup := by decide

theorem filterMap_none {α β : Type} : ∀ l : List α,
    l.filterMap (fun _ => (none : Option β)) = []
  | [] => rfl
  | _ :: rest => by
    rw [List.filterMap_cons]
    exact filterMap_none rest

/-- Evaluation of the long-term loop body at the example fixture. -/
theorem longTermStep_example_eval :
    (longTermStep exampleFetch "TCS.NS").1 = some exampleRecord := by
  have hfe : exampleFetch "TCS.NS" = .ok exampleBars := rfl
  have h1 : lastClose exampleBars = 93 := rfl
  have h2 : minLow exampleBars = min (min (100 : ℚ) 90) 95 := rfl
  have hcond : lastClose exampleBars ≤ minLow exampleBars * 1.05 := by
    rw [h1, h2]
    norm_num [min_def]
  unfold longTermStep
  rw [hfe]
  dsimp only
  rw [if_neg (by simp [exampleBars]), if_pos hcond]
  rfl

-- Claims.

/-- C1: For every ticker in the long-term universe whose fetch succeeds and
returns a non-empty price series, the long-term scan emits a `SuggestionRecord`
for that ticker iff the series' last close price is at most the minimum of the
`Low` field over the series times 1.05. -/
theorem long_term_emits_iff_near_low
    (fetch : Ticker → Except String (List Bar)) (t : Ticker)
    (ht : t ∈ NIFTY_100_STOCKS) (bars : List Bar)
    (hf : fetch t = .ok bars) (hne : bars ≠ []) :
    (∃ r ∈ (find_long_term_suggestions fetch).records, r.stock = t)
      ↔ lastClose bars ≤ minLow bars * 1.05 :=
  long_term_mem_iff fetch t ht bars hf hne

/-- C1, instantiated at the example fetch: the match holds since 93 ≤ 94.5. -/
theorem long_term_emits_iff_near_low_witness :
    (∃ r ∈ (find_long_term_suggestions exampleFetch).records, r.stock = "TCS.NS")
      ↔ lastClose exampleBars ≤ minLow exampleBars * 1.05 :=
  long_term_emits_iff_near_low exampleFetch "TCS.NS" (by decide) exampleBars rfl
    (List.cons_ne_nil _ _)

/-- C2: For every ticker in the intraday universe whose sub-series extraction
succeeds, an `OpportunityRecord` is emitted iff today has at least one bar, the
last close strictly exceeds today's first open, the last close is at least
today's max `High` times 0.995, the prior-window average volume is 0 or the last
volume strictly exceeds 1.5 times that average, and
`(max High + 0.05) − first open > 0`. -/
theorem intraday_emits_iff_breakout
    (today : Int) (data : Ticker → Except String Frame) (t : Ticker)
    (ht : t ∈ NIFTY_50_STOCKS) (fr : Frame) (hd : data t = .ok fr) :
    (∃ r ∈ (find_intraday_core today data).records, r.stock = t) ↔
      (todayBars fr today ≠ [] ∧
       lastClose (todayBars fr today) > firstOpen (todayBars fr today) ∧
       lastClose (todayBars fr today) ≥ maxHigh (todayBars fr today) * 0.995 ∧
       ((avgLastVolume fr today).1 = 0 ∨
          (avgLastVolume fr today).2 > (avgLastVolume fr today).1 * 1.5) ∧
       maxHigh (todayBars fr today) + 0.05 - firstOpen (todayBars fr today) > 0) :=
  intraday_mem_iff today data t ht fr hd

/-- C2, instantiated at the example frame (open 100, high 105, close 104.7,
volume spike 1600 > 1500). -/
theorem intraday_emits_iff_breakout_witness :
    (∃ r ∈ (find_intraday_core 5 exampleData).records, r.stock = "TCS.NS") ↔
      (todayBars exampleFrame 5 ≠ [] ∧
       lastClose (todayBars exampleFrame 5) > firstOpen (todayBars exampleFrame 5) ∧
       lastClose (todayBars exampleFrame 5) ≥ maxHigh (todayBars exampleFrame 5) * 0.995 ∧
       ((avgLastVolume exampleFrame 5).1 = 0 ∨
          (avgLastVolume exampleFrame 5).2 > (avgLastVolume exampleFrame 5).1 * 1.5) ∧
       maxHigh (todayBars exampleFrame 5) + 0.05 - firstOpen (todayBars exampleFrame 5) > 0) :=
  intraday_emits_iff_breakout 5 exampleData "TCS.NS" (by decide) exampleFrame rfl

/-- C3 counterexample: when the single batch fetch raises, the intraday scan does
not return an empty table — the batch download happens outside the per-ticker
`try`, so the exception escapes. -/
theorem intraday_batch_error_not_swallowed :
    ¬ ∃ res, find_intraday_opportunities 0 (Except.error "network unreachable")
        = Except.ok res ∧ res.records = [] := by
  rintro ⟨res, h, -⟩
  exact Except.noConfusion h

/-- C3 (amended): if the intraday scan's single batch fetch raises, the exception
propagates out of `find_intraday_opportunities` unchanged; no result table is
produced. -/
theorem intraday_batch_error_propagates (today : Int) (e : String) :
    find_intraday_opportunities today (Except.error e) = Except.error e := rfl

/-- C4 counterexample: the long-term universe does not have 100 symbols. -/
theorem universe_sizes_not_100_50 :
    ¬ (NIFTY_100_STOCKS.length = 100 ∧ NIFTY_50_STOCKS.length = 50) := by decide

/-- C4 (amended): the long-term universe has exactly 97 symbols and the intraday
universe exactly 50. -/
theorem universe_sizes :
    NIFTY_100_STOCKS.length = 97 ∧ NIFTY_50_STOCKS.length = 50 := by decide

/-- C5: a failing ticker contributes no record while all other tickers contribute
or omit their records exactly as under a non-failing fetch that agrees elsewhere;
the long-term scan emits exactly one warning per failing ticker (and none per
succeeding one), and the intraday scan emits no warnings at all. -/
theorem fault_isolation
    (f g : Ticker → Except String (List Bar)) (t : Ticker)
    (today : Int) (d d' : Ticker → Except String Frame) (s : Ticker)
    (hgt : ∃ e, g t = .error e)
    (hagree : ∀ t', t' ≠ t → g t' = f t')
    (hds : ∃ e, d s = .error e)
    (hagree2 : ∀ s', s' ≠ s → d s' = d' s') :
    (find_long_term_suggestions g).records
        = NIFTY_100_STOCKS.filterMap
            (fun t' => if t' = t then none else (longTermStep f t').1)
    ∧ (find_long_term_suggestions g).warnings = NIFTY_100_STOCKS.filterMap (warnOpt g)
    ∧ (find_intraday_core today d).records
        = NIFTY_50_STOCKS.filterMap
            (fun s' => if s' = s then none else (intradayStep today d' s').1)
    ∧ (find_intraday_core today d).warnings = [] := by
  refine ⟨?_, ?_, ?_, ?_⟩
  · rw [show (find_long_term_suggestions g).records = _ from runScan_records _ _]
    apply List.filterMap_congr
    intro t' _
    by_cases hc : t' = t
    · subst hc
      obtain ⟨e, he⟩ := hgt
      simp [longTermStep, he]
    · rw [if_neg hc, longTermStep_congr t' (hagree t' hc)]
  · exact runScan_warnings _ _ (warnOpt g) (longTermStep_warnings g)
  · rw [show (find_intraday_core today d).records = _ from runScan_records _ _]
    apply List.filterMap_congr
    intro s' _
    by_cases hc : s' = s
    · subst hc
      obtain ⟨e, he⟩ := hds
      simp [intradayStep, he]
    · rw [if_neg hc, intradayStep_congr today s' (hagree2 s' hc)]
  · exact (runScan_warnings _ _ (fun _ => none)
      (fun s' => intradayStep_warnings today d s')).trans (filterMap_none _)

/-- C5, instantiated: `failFetch` fails only at "TCS.NS" and `failData` only at
"INFY.NS". -/
theorem fault_isolation_witness :
    (find_long_term_suggestions failFetch).records
        = NIFTY_100_STOCKS.filterMap
            (fun t' => if t' = "TCS.NS" then none else (longTermStep okFetch t').1)
    ∧ (find_long_term_suggestions failFetch).warnings
        = NIFTY_100_STOCKS.filterMap (warnOpt failFetch)
    ∧ (find_intraday_core 0 failData).records
        = NIFTY_50_STOCKS.filterMap
            (fun s' => if s' = "INFY.NS" then none else (intradayStep 0 okData s').1)
    ∧ (find_intraday_core 0 failData).warnings = [] :=
  fault_isolation okFetch failFetch "TCS.NS" 0 failData okData "INFY.NS"
    ⟨"boom", rfl⟩
    (fun t' h => by simp [failFetch, okFetch, if_neg h])
    ⟨"boom", rfl⟩
    (fun s' h => by simp [failData, okData, if_neg h])

/-- C6: each scan reports progress exactly once per ticker; the fraction after
ticker `i` is `min 1 ((i+1)/N)`; the sequence is non-decreasing and ends at 1. -/
theorem progress_reporting
    (fetch : Ticker → Except String (List Bar)) (today : Int)
    (data : Ticker → Except String Frame) :
    (find_long_term_suggestions fetch).progress.length = NIFTY_100_STOCKS.length
    ∧ (find_long_term_suggestions fetch).progress = progressList NIFTY_100_STOCKS.length
    ∧ List.Chain' (· ≤ ·) (find_long_term_suggestions fetch).progress
    ∧ (find_long_term_suggestions fetch).progress.getLast? = some 1
    ∧ (find_intraday_core today data).progress.length = NIFTY_50_STOCKS.length
    ∧ (find_intraday_core today data).progress = progressList NIFTY_50_STOCKS.length
    ∧ List.Chain' (· ≤ ·) (find_intraday_core today data).progress
    ∧ (find_intraday_core today data).progress.getLast? = some 1 := by
  have h1 : (find_long_term_suggestions fetch).progress
      = progressList NIFTY_100_STOCKS.length := runScan_progress _ _
  have h2 : (find_intraday_core today data).progress
      = progressList NIFTY_50_STOCKS.length := runScan_progress _ _
  refine ⟨?_, h1, ?_, ?_, ?_, h2, ?_, ?_⟩
  · rw [h1, progressList_length]
  · rw [h1]
    exact progressList_chain' _
  · rw [h1]
    exact progressList_getLast _ (by decide)
  · rw [h2, progressList_length]
  · rw [h2]
    exact progressList_chain' _
  · rw [h2]
    exact progressList_getLast _ (by decide)

/-- C7: every emitted long-term record renders CMP, 52-week low and 52-week high
as currency from the series' last close, min `Low` and max `High`, and its upside
field is `(max High − last close)/last close × 100` rendered to two decimals. -/
theorem long_term_record_fields
    (fetch : Ticker → Except String (List Bar)) (t : Ticker) (bars : List Bar)
    (r : SuggestionRecord) (hf : fetch t = .ok bars)
    (hr : r ∈ (find_long_term_suggestions fetch).records) (hs : r.stock = t) :
    r.cmp = rupee (lastClose bars)
    ∧ r.low52 = rupee (minLow bars)
    ∧ r.high52 = rupee (maxHigh bars)
    ∧ r.upside = fmt2 ((maxHigh bars - lastClose bars) / lastClose bars * 100) ++ "%" := by
  rw [show (find_long_term_suggestions fetch).records = _ from runScan_records _ _] at hr
  rw [List.mem_filterMap] at hr
  obtain ⟨t', _, hstep⟩ := hr
  have hst : r.stock = t' := longTermStep_stock hstep
  rw [hs] at hst
  rw [← hst] at hstep
  rw [longTermStep_eq_some hf hstep]
  exact ⟨rfl, rfl, rfl, rfl⟩

/-- C7, instantiated at the example series: upside is 2200/93 ≈ 23.66%. -/
theorem long_term_record_fields_witness :
    exampleRecord.cmp = rupee (lastClose exampleBars)
    ∧ exampleRecord.low52 = rupee (minLow exampleBars)
    ∧ exampleRecord.high52 = rupee (maxHigh exampleBars)
    ∧ exampleRecord.upside
        = fmt2 ((maxHigh exampleBars - lastClose exampleBars)
                  / lastClose exampleBars * 100) ++ "%" :=
  long_term_record_fields exampleFetch "TCS.NS" exampleBars exampleRecord rfl
    (by
      rw [show (find_long_term_suggestions exampleFetch).records = _ from
            runScan_records _ _]
      exact List.mem_filterMap.2 ⟨"TCS.NS", by decide, longTermStep_example_eval⟩)
    rfl

/-- C8: each ticker contributes at most one record, records preserve universe
order, and the table never outgrows the universe. -/
theorem records_ordered_and_unique
    (fetch : Ticker → Except String (List Bar)) (today : Int)
    (data : Ticker → Except String Frame) :
    ((find_long_term_suggestions fetch).records.map SuggestionRecord.stock).Sublist
        NIFTY_100_STOCKS
    ∧ ((find_long_term_suggestions fetch).records.map SuggestionRecord.stock).Nodup
    ∧ (find_long_term_suggestions fetch).records.length ≤ NIFTY_100_STOCKS.length
    ∧ ((find_intraday_core today data).records.map OpportunityRecord.stock).Sublist
        NIFTY_50_STOCKS
    ∧ ((find_intraday_core today data).records.map OpportunityRecord.stock).Nodup
    ∧ (find_intraday_core today data).records.length ≤ NIFTY_50_STOCKS.length := by
  have s1 : ((find_long_term_suggestions fetch).records.map SuggestionRecord.stock).Sublist
      NIFTY_100_STOCKS := by
    rw [show (find_long_term_suggestions fetch).records = _ from runScan_records _ _]
    exact filterMap_map_sublist _ _ (fun t r h => longTermStep_stock h) _
  have s2 : ((find_intraday_core today data).records.map OpportunityRecord.stock).Sublist
      NIFTY_50_STOCKS := by
    rw [show (find_intraday_core today data).records = _ from runScan_records _ _]
    exact filterMap_map_sublist _ _ (fun t r h => intradayStep_stock h) _
  refine ⟨s1, List.Nodup.sublist s1 nifty100_nodup, ?_,
         s2, List.Nodup.sublist s2 nifty50_nodup, ?_⟩
  · have hl := s1.length_le
    rwa [List.length_map] at hl
  · have hl := s2.length_le
    rwa [List.length_map] at hl

/-- C9: each scan is a deterministic function of the fetched data: fetches that
assign the same series to every ticker of the universe yield identical scan
results, so repeated invocations on the same data coincide. -/
theorem scan_deterministic
    (f g : Ticker → Except String (List Bar)) (today : Int)
    (d d' : Ticker → Except String Frame)
    (hfg : ∀ t ∈ NIFTY_100_STOCKS, f t = g t)
    (hdd : ∀ t ∈ NIFTY_50_STOCKS, d t = d' t) :
    find_long_term_suggestions f = find_long_term_suggestions g
    ∧ find_intraday_core today d = find_intraday_core today d' :=
  ⟨runScan_congr _ _ _ (fun t ht => longTermStep_congr t (hfg t ht)),
   runScan_congr _ _ _ (fun t ht => intradayStep_congr today t (hdd t ht))⟩

/-- C9, instantiated at two syntactically different but pointwise-equal fetches. -/
theorem scan_deterministic_witness :
    find_long_term_suggestions okFetch
        = find_long_term_suggestions (fun _ => Except.ok exampleBars)
    ∧ find_intraday_core 0 okData = find_intraday_core 0 (fun _ => Except.ok exampleFrame) :=
  scan_deterministic okFetch (fun _ => Except.ok exampleBars) 0 okData
    (fun _ => Except.ok exampleFrame) (fun _ _ => rfl) (fun _ _ => rfl)

/-- C10: when the sub-frame lacks a Volume column or today has exactly one bar,
the loop sets both `avg_volume` and `last_volume` to 0, the volume condition is
vacuous — a record is emitted iff the near-high breakout holds with positive
risk — and the bars' actual volumes are never consulted. -/
theorem intraday_degenerate_volume
    (today : Int) (data : Ticker → Except String Frame) (t : Ticker)
    (ht : t ∈ NIFTY_50_STOCKS) (fr fr' : Frame) (hd : data t = .ok fr)
    (hdeg : fr.hasVolume = false ∨ (todayBars fr today).length = 1)
    (hv : fr'.hasVolume = fr.hasVolume)
    (hb : fr'.bars.map dropVolume = fr.bars.map dropVolume) :
    avgLastVolume fr today = (0, 0)
    ∧ ((∃ r ∈ (find_intraday_core today data).records, r.stock = t)
        ↔ (todayBars fr today ≠ [] ∧
           lastClose (todayBars fr today) > firstOpen (todayBars fr today) ∧
           lastClose (todayBars fr today) ≥ maxHigh (todayBars fr today) * 0.995 ∧
           maxHigh (todayBars fr today) + 0.05 - firstOpen (todayBars fr today) > 0))
    ∧ (intradayStep today (fun _ => .ok fr') t).1
        = (intradayStep today (fun _ => .ok fr) t).1 := by
  have hA := avgLastVolume_degenerate fr today hdeg
  refine ⟨hA, ?_, intradayStep_volume_blind today t fr fr' hdeg hv hb⟩
  rw [intraday_mem_iff today data t ht fr hd, hA]
  simp

/-- C10, instantiated at a one-bar-today frame and a volume-altered copy. -/
theorem intraday_degenerate_volume_witness :
    avgLastVolume oneBarFrame 5 = (0, 0)
    ∧ ((∃ r ∈ (find_intraday_core 5 oneBarData).records, r.stock = "TCS.NS")
        ↔ (todayBars oneBarFrame 5 ≠ [] ∧
           lastClose (todayBars oneBarFrame 5) > firstOpen (todayBars oneBarFrame 5) ∧
           lastClose (todayBars oneBarFrame 5)
             ≥ maxHigh (todayBars oneBarFrame 5) * 0.995 ∧
           maxHigh (todayBars oneBarFrame 5) + 0.05
             - firstOpen (todayBars oneBarFrame 5) > 0))
    ∧ (intradayStep 5 (fun _ => .ok oneBarFrameAlt) "TCS.NS").1
        = (intradayStep 5 (fun _ => .ok oneBarFrame) "TCS.NS").1 :=
  intraday_degenerate_volume 5 oneBarData "TCS.NS" (by decide) oneBarFrame oneBarFrameAlt
    rfl (Or.inr rfl) rfl rfl

end Dashboard
